import Mathlib

/-!
Verification of the compositor commit/draw scheduling core of this
repository against its design description.

The first half embeds `cc::FrameRateController`
(src/cc/scheduler/frame_rate_controller.cc) as a pure state machine:
C++ `int` counters become `Int`, `DCHECK` failures become `Option.none`,
the task-runner queue of posted `ManualTick` callbacks becomes a natural
number counting callbacks that are posted, not yet run and not
invalidated, and the wrapped `TimeSource` activity becomes a boolean
field.  The second half models components whose implementation files are
not part of this sample (only their unit tests are) from the design
document, as marked on each definition.
-/

namespace Cc

/-- State of `cc::FrameRateController` (src/cc/scheduler/frame_rate_controller.cc):
`num_frames_pending_` and `max_swaps_pending_` are C++ `int`s, `active_`,
`is_time_source_throttling_` bools, `client_` is modelled by whether a client
is registered, the wrapped `TimeSource`'s activity by `time_source_active`,
and the task runner's queue of posted-and-still-valid `ManualTick` callbacks
by `manual_ticks_pending`. -/
structure FrameRateController where
  num_frames_pending : Int
  max_swaps_pending : Int
  active : Bool
  is_time_source_throttling : Bool
  has_client : Bool
  time_source_active : Bool
  manual_ticks_pending : Nat
deriving DecidableEq, Repr

instance : Inhabited FrameRateController :=
  ⟨⟨0, 0, false, false, false, false, 0⟩⟩

/-- `FrameRateController::FrameRateController(scoped_refptr<TimeSource>)`:
time-source-throttled mode, zero pending frames, unlimited swaps, inactive. -/
def FrameRateController.initTimeSourceMode : FrameRateController :=
  { num_frames_pending := 0
    max_swaps_pending := 0
    active := false
    is_time_source_throttling := true
    has_client := false
    time_source_active := false
    manual_ticks_pending := 0 }

/-- `FrameRateController::FrameRateController(SingleThreadTaskRunner*)`:
manual ("task runner") mode. -/
def FrameRateController.initTaskRunnerMode : FrameRateController :=
  { FrameRateController.initTimeSourceMode with is_time_source_throttling := false }

/-- `FrameRateController::PostManualTick`: posts a `ManualTick` task iff
`active_`. -/
def FrameRateController.PostManualTick (s : FrameRateController) : FrameRateController :=
  if s.active then
    { s with manual_ticks_pending := s.manual_ticks_pending + 1 }
  else s

/-- `FrameRateController::SetActive`: early-returns when the state is unchanged;
otherwise flips `active_`, then either forwards to the time source, posts a
manual tick, or invalidates all pending weak callbacks. -/
def FrameRateController.SetActive (s : FrameRateController) (active : Bool) :
    FrameRateController :=
  if s.active == active then s
  else
    let s1 := { s with active := active }
    if s1.is_time_source_throttling then
      { s1 with time_source_active := active }
    else if active then
      s1.PostManualTick
    else
      { s1 with manual_ticks_pending := 0 }

/-- `FrameRateController::SetMaxSwapsPending`: `DCHECK_GE(max_swaps_pending, 0)`
then stores the value; the failed `DCHECK` is `none`. -/
def FrameRateController.SetMaxSwapsPending (s : FrameRateController) (n : Int) :
    Option FrameRateController :=
  if 0 ≤ n then some { s with max_swaps_pending := n } else none

/-- The local `throttled` computation of `FrameRateController::OnTimerTick`:
`max_swaps_pending_ && num_frames_pending_ >= max_swaps_pending_`. -/
def FrameRateController.throttled (s : FrameRateController) : Bool :=
  s.max_swaps_pending != 0 && decide (s.max_swaps_pending ≤ s.num_frames_pending)

/-- `FrameRateController::OnTimerTick`: `DCHECK(active_)` (`none` on failure),
computes `throttled`, notifies the client with that flag when one is
registered (the returned `Option Bool` is the delivered notification), and in
manual mode re-posts the next manual tick iff not throttled. -/
def FrameRateController.OnTimerTick (s : FrameRateController) :
    Option (Option Bool × FrameRateController) :=
  if s.active then
    let t := s.throttled
    let notification : Option Bool := if s.has_client then some t else none
    let s1 := if !s.is_time_source_throttling && !t then s.PostManualTick else s
    some (notification, s1)
  else none

/-- `FrameRateController::DidSwapBuffers`: increments `num_frames_pending_`. -/
def FrameRateController.DidSwapBuffers (s : FrameRateController) : FrameRateController :=
  { s with num_frames_pending := s.num_frames_pending + 1 }

/-- `FrameRateController::DidSwapBuffersComplete`:
`DCHECK_GT(num_frames_pending_, 0)` (`none` on failure), decrements the
counter, and in manual mode posts a manual tick. -/
def FrameRateController.DidSwapBuffersComplete (s : FrameRateController) :
    Option FrameRateController :=
  if 0 < s.num_frames_pending then
    let s1 := { s with num_frames_pending := s.num_frames_pending - 1 }
    some (if !s1.is_time_source_throttling then s1.PostManualTick else s1)
  else none

/-- `FrameRateController::DidAbortAllPendingFrames`: resets
`num_frames_pending_` to zero. -/
def FrameRateController.DidAbortAllPendingFrames (s : FrameRateController) :
    FrameRateController :=
  { s with num_frames_pending := 0 }

/-- One externally triggered event on a `FrameRateController`:
an API call, or the task runner running one queued `ManualTick` callback. -/
inductive FrcEvent where
  | setActive (b : Bool)
  | setMaxSwapsPending (n : Int)
  | runManualTick
  | didSwapBuffers
  | didSwapBuffersComplete
  | didAbortAllPendingFrames
deriving DecidableEq, Repr

/-- Small-step semantics of one event; `none` is a failed `DCHECK` or running
a `ManualTick` task that is not queued. -/
def FrcEvent.step (s : FrameRateController) : FrcEvent → Option FrameRateController
  | .setActive b => some (s.SetActive b)
  | .setMaxSwapsPending n => s.SetMaxSwapsPending n
  | .runManualTick =>
      if s.manual_ticks_pending = 0 then none
      else
        (({ s with manual_ticks_pending := s.manual_ticks_pending - 1 }).OnTimerTick).map
          Prod.snd
  | .didSwapBuffers => some s.DidSwapBuffers
  | .didSwapBuffersComplete => s.DidSwapBuffersComplete
  | .didAbortAllPendingFrames => some s.DidAbortAllPendingFrames

/-- Runs a trace of events, failing as soon as one step fails. -/
def frcRun (s : FrameRateController) : List FrcEvent → Option FrameRateController
  | [] => some s
  | e :: tr =>
      match FrcEvent.step s e with
      | none => none
      | some s1 => frcRun s1 tr

/-- Number of `DidSwapBuffers` calls in a trace. -/
def countSwaps : List FrcEvent → Nat
  | [] => 0
  | .didSwapBuffers :: tr => countSwaps tr + 1
  | _ :: tr => countSwaps tr

/-- Number of `DidSwapBuffersComplete` calls in a trace. -/
def countCompletes : List FrcEvent → Nat
  | [] => 0
  | .didSwapBuffersComplete :: tr => countCompletes tr + 1
  | _ :: tr => countCompletes tr

/-- Whether a trace consists only of `DidSwapBuffers` / `DidSwapBuffersComplete`
calls. -/
def swapEventsOnly (tr : List FrcEvent) : Bool :=
  tr.all fun e => e == .didSwapBuffers || e == .didSwapBuffersComplete

theorem postManualTick_num_frames (s : FrameRateController) :
    s.PostManualTick.num_frames_pending = s.num_frames_pending := by
  unfold FrameRateController.PostManualTick
  split <;> rfl

theorem postManualTick_ticks (s : FrameRateController) :
    s.PostManualTick.manual_ticks_pending =
      if s.active then s.manual_ticks_pending + 1 else s.manual_ticks_pending := by
  unfold FrameRateController.PostManualTick
  split <;> simp_all

theorem didSwapBuffersComplete_spec (s s' : FrameRateController)
    (h : s.DidSwapBuffersComplete = some s') :
    0 < s.num_frames_pending ∧ s'.num_frames_pending = s.num_frames_pending - 1 := by
  unfold FrameRateController.DidSwapBuffersComplete at h
  split at h
  · next hpos =>
    refine ⟨hpos, ?_⟩
    obtain rfl := Option.some.inj h
    split
    · rw [postManualTick_num_frames]
    · rfl
  · exact absurd h (by simp)

theorem frcRun_swap_counts :
    ∀ (tr : List FrcEvent) (s0 s : FrameRateController),
      swapEventsOnly tr = true → frcRun s0 tr = some s →
      (s.num_frames_pending =
        s0.num_frames_pending + (countSwaps tr : Int) - (countCompletes tr : Int)) ∧
      (0 ≤ s0.num_frames_pending → 0 ≤ s.num_frames_pending)
  | [], s0, s, _, h => by
      obtain rfl := Option.some.inj h
      simp [countSwaps, countCompletes]
  | e :: tr, s0, s, hok, h => by
      have he : e = .didSwapBuffers ∨ e = .didSwapBuffersComplete := by
        have := List.all_eq_true.mp hok e (List.mem_cons_self e tr)
        rcases e <;> simp_all
      have hok' : swapEventsOnly tr = true := by
        unfold swapEventsOnly at hok ⊢
        exact List.all_eq_true.mpr fun x hx =>
          List.all_eq_true.mp hok x (List.mem_cons_of_mem e hx)
      rcases he with rfl | rfl
      · have hstep : FrcEvent.step s0 .didSwapBuffers = some s0.DidSwapBuffers := rfl
        rw [frcRun, hstep] at h
        obtain ⟨ih1, ih2⟩ := frcRun_swap_counts tr s0.DidSwapBuffers s hok' h
        have hp : s0.DidSwapBuffers.num_frames_pending = s0.num_frames_pending + 1 := rfl
        constructor
        · rw [ih1, hp]
          simp [countSwaps, countCompletes]
          ring
        · intro h0
          exact ih2 (by rw [hp]; omega)
      · rw [frcRun] at h
        rcases hc : FrcEvent.step s0 .didSwapBuffersComplete with _ | s1
        · rw [hc] at h; exact absurd h (by simp)
        · rw [hc] at h
          have hc' : s0.DidSwapBuffersComplete = some s1 := hc
          obtain ⟨hpos, hdec⟩ := didSwapBuffersComplete_spec s0 s1 hc'
          obtain ⟨ih1, ih2⟩ := frcRun_swap_counts tr s1 s hok' h
          constructor
          · rw [ih1, hdec]
            simp [countSwaps, countCompletes]
            ring
          · intro _
            exact ih2 (by omega)

theorem frcRun_append_some :
    ∀ (pre suf : List FrcEvent) (s0 s : FrameRateController),
      frcRun s0 (pre ++ suf) = some s → ∃ s1, frcRun s0 pre = some s1
  | [], _, s0, _, _ => ⟨s0, rfl⟩
  | e :: pre, suf, s0, s, h => by
      rw [List.cons_append, frcRun] at h
      rcases hc : FrcEvent.step s0 e with _ | s1
      · rw [hc] at h; exact absurd h (by simp)
      · rw [hc] at h
        obtain ⟨s2, h2⟩ := frcRun_append_some pre suf s1 s h
        exact ⟨s2, by rw [frcRun, hc]; exact h2⟩

/-- C1: `DidSwapBuffers` increments the pending-frame counter by one,
`DidSwapBuffersComplete` decrements it by one and fails (its `DCHECK`) when the
counter is already zero, `DidAbortAllPendingFrames` resets it to zero
unconditionally, and along any successful interleaving of swap / swap-complete
events started from a counter of zero (construction, or the state just after
`DidAbortAllPendingFrames`) the counter equals
#DidSwapBuffers − #DidSwapBuffersComplete and never goes below zero; every
point of the interleaving is covered because any successful run restricts to a
successful run of each of its prefixes. -/
theorem frc_pending_swap_counter_spec :
    (∀ s : FrameRateController,
        s.DidSwapBuffers.num_frames_pending = s.num_frames_pending + 1) ∧
    (∀ s s' : FrameRateController, s.DidSwapBuffersComplete = some s' →
        s'.num_frames_pending = s.num_frames_pending - 1) ∧
    (∀ s : FrameRateController, s.num_frames_pending = 0 →
        s.DidSwapBuffersComplete = none) ∧
    (∀ s : FrameRateController,
        s.DidAbortAllPendingFrames.num_frames_pending = 0) ∧
    (∀ (s0 s : FrameRateController) (tr : List FrcEvent),
        s0.num_frames_pending = 0 → swapEventsOnly tr = true →
        frcRun s0 tr = some s →
        s.num_frames_pending = (countSwaps tr : Int) - (countCompletes tr : Int) ∧
        0 ≤ s.num_frames_pending) ∧
    (∀ (pre suf : List FrcEvent) (s0 s : FrameRateController),
        frcRun s0 (pre ++ suf) = some s → ∃ s1, frcRun s0 pre = some s1) := by
  refine ⟨fun s => rfl, ?_, ?_, fun s => rfl, ?_, frcRun_append_some⟩
  · exact fun s s' h => (didSwapBuffersComplete_spec s s' h).2
  · intro s h
    unfold FrameRateController.DidSwapBuffersComplete
    rw [h]
    rfl
  · intro s0 s tr h0 hok h
    obtain ⟨h1, h2⟩ := frcRun_swap_counts tr s0 s hok h
    exact ⟨by rw [h1, h0]; ring, h2 (by omega)⟩

/-- Final state of the concrete trace used to witness C1. -/
def frcW : FrameRateController := ⟨1, 0, false, false, false, false, 0⟩

theorem frc_pending_swap_counter_witness :
    frcW.num_frames_pending =
      (countSwaps [FrcEvent.didSwapBuffers, FrcEvent.didSwapBuffers,
        FrcEvent.didSwapBuffersComplete] : Int) -
      (countCompletes [FrcEvent.didSwapBuffers, FrcEvent.didSwapBuffers,
        FrcEvent.didSwapBuffersComplete] : Int) ∧
    0 ≤ frcW.num_frames_pending :=
  frc_pending_swap_counter_spec.2.2.2.2.1 FrameRateController.initTaskRunnerMode frcW
    [FrcEvent.didSwapBuffers, FrcEvent.didSwapBuffers, FrcEvent.didSwapBuffersComplete]
    (by decide) (by decide) (by decide)

/-- C2: on every tick processed by `OnTimerTick` (so `active_`, its `DCHECK`,
holds, and `max_swaps_pending_` is nonnegative as `SetMaxSwapsPending`'s
`DCHECK` and the constructors enforce), when a client is registered the client
is notified with exactly the flag
`max_swaps_pending > 0 AND num_frames_pending >= max_swaps_pending`,
whatever its value: the controller never suppresses the notification. -/
theorem frc_tick_notifies_client (s : Cc.FrameRateController)
    (ha : s.active = true) (hm : 0 ≤ s.max_swaps_pending) (hc : s.has_client = true) :
    (s.OnTimerTick).map Prod.fst = some (some s.throttled) ∧
    (s.throttled = true ↔
      0 < s.max_swaps_pending ∧ s.max_swaps_pending ≤ s.num_frames_pending) := by
  constructor
  · unfold FrameRateController.OnTimerTick
    rw [ha, hc]
    simp
  · unfold FrameRateController.throttled
    rw [Bool.and_eq_true, bne_iff_ne, decide_eq_true_iff]
    constructor
    · rintro ⟨h1, h2⟩
      exact ⟨lt_of_le_of_ne hm (Ne.symm h1), h2⟩
    · rintro ⟨h1, h2⟩
      exact ⟨by omega, h2⟩

/-- Concrete throttled state used to witness C2. -/
def frcB : Cc.FrameRateController := ⟨2, 2, true, true, true, false, 0⟩

theorem frc_tick_notifies_client_witness :
    (frcB.OnTimerTick).map Prod.fst = some (some frcB.throttled) ∧
    (frcB.throttled = true ↔
      0 < frcB.max_swaps_pending ∧ frcB.max_swaps_pending ≤ frcB.num_frames_pending) :=
  frc_tick_notifies_client frcB (by decide) (by decide) (by decide)

/-- C10: `SetActive(b)` with `active_` already equal to `b` returns the state
completely unchanged (no time-source call, no task posted, no callback
invalidated), and consequently two consecutive `SetActive(true)` calls on an
inactive manual-mode controller enqueue exactly one self-tick task. -/
theorem frc_setActive_idempotent :
    (∀ (s : Cc.FrameRateController) (b : Bool), s.active = b → s.SetActive b = s) ∧
    (∀ s : Cc.FrameRateController, s.is_time_source_throttling = false →
        s.active = false →
        ((s.SetActive true).SetActive true).manual_ticks_pending =
          s.manual_ticks_pending + 1) := by
  have hid : ∀ (s : Cc.FrameRateController) (b : Bool), s.active = b → s.SetActive b = s := by
    intro s b h
    unfold FrameRateController.SetActive
    rw [h, beq_self_eq_true]
    simp
  refine ⟨hid, ?_⟩
  intro s hm ha
  have h1 : (s.SetActive true) =
      ({ s with active := true } : Cc.FrameRateController).PostManualTick := by
    unfold FrameRateController.SetActive
    rw [ha]
    simp [hm]
  have h2 : (s.SetActive true).active = true := by
    rw [h1]
    unfold FrameRateController.PostManualTick
    split <;> rfl
  rw [hid (s.SetActive true) true h2, h1]
  unfold FrameRateController.PostManualTick
  split
  · rfl
  · simp_all

theorem frc_setActive_idempotent_witness :
    ((Cc.FrameRateController.initTaskRunnerMode.SetActive true).SetActive
        true).manual_ticks_pending =
      Cc.FrameRateController.initTaskRunnerMode.manual_ticks_pending + 1 :=
  frc_setActive_idempotent.2 Cc.FrameRateController.initTaskRunnerMode
    (by decide) (by decide)

/-- C3 counterexample: from a freshly constructed manual-mode controller,
`SetActive(true)` then `DidSwapBuffers` leaves exactly one self-tick task
already scheduled, yet the following `DidSwapBuffersComplete` enqueues a
second one (2 tasks, not 1): `DidSwapBuffersComplete` does not check whether a
self-tick is already scheduled. -/
theorem frc_manual_rearm_cex :
    (Cc.frcRun Cc.FrameRateController.initTaskRunnerMode
        [.setActive true, .didSwapBuffers]).map
        (fun s => s.manual_ticks_pending) = some 1 ∧
    (Cc.frcRun Cc.FrameRateController.initTaskRunnerMode
        [.setActive true, .didSwapBuffers, .didSwapBuffersComplete]).map
        (fun s => s.manual_ticks_pending) = some 2 := by decide

/-- C3 (amended): in manual (non-time-source) mode, running a queued self-tick
re-enqueues the next one exactly when the tick is not throttled (net task
count unchanged) and does not re-enqueue when throttled (net count drops by
one); among the swap-bookkeeping calls only `DidSwapBuffersComplete` enqueues
the next tick task, and it re-arms the self-tick unconditionally whenever the
controller is active — even when one is already scheduled. -/
theorem frc_manual_tick_rearm :
    (∀ s s' : Cc.FrameRateController, s.is_time_source_throttling = false →
        FrcEvent.step s .runManualTick = some s' →
        s'.manual_ticks_pending =
          if s.throttled then s.manual_ticks_pending - 1
          else s.manual_ticks_pending) ∧
    (∀ s : Cc.FrameRateController,
        s.DidSwapBuffers.manual_ticks_pending = s.manual_ticks_pending ∧
        s.DidAbortAllPendingFrames.manual_ticks_pending = s.manual_ticks_pending) ∧
    (∀ s s' : Cc.FrameRateController, s.is_time_source_throttling = false →
        s.active = true → s.DidSwapBuffersComplete = some s' →
        s'.manual_ticks_pending = s.manual_ticks_pending + 1) := by
  refine ⟨?_, fun s => ⟨rfl, rfl⟩, ?_⟩
  · intro s s' hm h
    rw [show FrcEvent.step s .runManualTick =
        (if s.manual_ticks_pending = 0 then none
         else (({ s with manual_ticks_pending := s.manual_ticks_pending - 1 } :
             Cc.FrameRateController).OnTimerTick).map Prod.snd) from rfl] at h
    split at h
    · exact absurd h (by simp)
    · next h0 =>
      set s1 : Cc.FrameRateController :=
        { s with manual_ticks_pending := s.manual_ticks_pending - 1 } with hs1
      rcases hact : s.active with _ | _
      · rw [show s1.OnTimerTick = none from by
              unfold FrameRateController.OnTimerTick
              rw [show s1.active = s.active from rfl, hact]
              rfl] at h
        exact absurd h (by simp)
      · have htick : s1.OnTimerTick = some
            ((if s1.has_client then some s1.throttled else none),
             if s1.throttled then s1 else s1.PostManualTick) := by
          unfold FrameRateController.OnTimerTick
          rw [show s1.active = s.active from rfl, hact,
            show s1.is_time_source_throttling = s.is_time_source_throttling from rfl,
            hm]
          cases s1.throttled <;> simp
        rw [htick] at h
        simp only [Option.map_some', Option.some.injEq] at h
        rw [← h]
        have hthr : s1.throttled = s.throttled := rfl
        rw [hthr]
        rcases hth : s.throttled with _ | _
        · simp only [Bool.false_eq_true, if_false]
          have hpost : s1.PostManualTick.manual_ticks_pending =
              s1.manual_ticks_pending + 1 := by
            unfold FrameRateController.PostManualTick
            rw [show s1.active = s.active from rfl, hact]
            rfl
          rw [hpost]
          have : s1.manual_ticks_pending = s.manual_ticks_pending - 1 := rfl
          omega
        · simp only [if_true]
  · intro s s' hm ha h
    unfold FrameRateController.DidSwapBuffersComplete at h
    split at h
    · obtain rfl := Option.some.inj h
      rw [hm]
      simp only [Bool.not_false, if_pos rfl]
      unfold FrameRateController.PostManualTick
      split
      · rfl
      · simp_all
    · exact absurd h (by simp)

theorem frc_manual_tick_rearm_witness :
    (⟨0, 0, true, false, false, false, 2⟩ :
        Cc.FrameRateController).manual_ticks_pending =
      (⟨1, 0, true, false, false, false, 1⟩ :
        Cc.FrameRateController).manual_ticks_pending + 1 :=
  frc_manual_tick_rearm.2.2 ⟨1, 0, true, false, false, false, 1⟩
    ⟨0, 0, true, false, false, false, 2⟩ (by decide) (by decide) (by decide)

/-- Modelled from the spec: the commit-request bookkeeping of the commit
scheduler / LayerTreeHost pair, whose implementation files are not part of
this sample (only src/cc/trees/layer_tree_host_unittest.cc is).  Spec §4.4:
`SetNeedsCommit()` records an idempotent commit request (multiple calls
before the next commit collapse), `SetDeferCommits(true)` suspends commit
execution with the request queued, not dropped, and a scheduler tick executes
at most one pending commit. -/
structure CommitScheduler where
  needs_commit : Bool
  defer_commits : Bool
  commits_executed : Nat
deriving DecidableEq, Repr

/-- Modelled from the spec: initial scheduler state, nothing requested. -/
def CommitScheduler.init : CommitScheduler :=
  { needs_commit := false, defer_commits := false, commits_executed := 0 }

/-- Modelled from the spec: `SetNeedsCommit()` records the request as a flag,
making repeated calls collapse. -/
def CommitScheduler.SetNeedsCommit (s : CommitScheduler) : CommitScheduler :=
  { s with needs_commit := true }

/-- Modelled from the spec: `SetDeferCommits(b)` toggles deferral without
touching the queued request. -/
def CommitScheduler.SetDeferCommits (s : CommitScheduler) (defer : Bool) :
    CommitScheduler :=
  { s with defer_commits := defer }

/-- Modelled from the spec: one scheduler tick, executing the single pending
commit when one is requested and commits are not deferred. -/
def CommitScheduler.tick (s : CommitScheduler) : CommitScheduler :=
  if s.needs_commit && !s.defer_commits then
    { s with needs_commit := false, commits_executed := s.commits_executed + 1 }
  else s

/-- `n` successive `SetNeedsCommit()` calls. -/
def CommitScheduler.iterSNC : Nat → CommitScheduler → CommitScheduler
  | 0, s => s
  | n + 1, s => CommitScheduler.iterSNC n s.SetNeedsCommit

theorem iterSNC_pos (n : Nat) (hn : 1 ≤ n) (s : CommitScheduler) :
    CommitScheduler.iterSNC n s = { s with needs_commit := true } := by
  induction n generalizing s with
  | zero => omega
  | succ n ih =>
      rcases Nat.eq_zero_or_pos n with rfl | hpos
      · rfl
      · rw [CommitScheduler.iterSNC, ih hpos]
        rfl

/-- C4 counterexample: a tick executes a requested commit (one commit so far);
with zero further `SetNeedsCommit` calls before the next tick, that next tick
executes zero commits, not one — the claim's "for every n ≥ 0" fails at
n = 0. -/
theorem setNeedsCommit_zero_calls_cex :
    (CommitScheduler.init.SetNeedsCommit.tick).commits_executed = 1 ∧
    (CommitScheduler.init.SetNeedsCommit.tick.tick).commits_executed = 1 := by
  decide

/-- C4 (amended): `SetNeedsCommit` is idempotent: for every n ≥ 1 calls to
`SetNeedsCommit` between two ticks (commits not deferred), the next tick
executes exactly one commit, and a further tick with no new request executes
none — multiple requests collapse to a single commit and no extra commits
occur. -/
theorem setNeedsCommit_collapse (s : CommitScheduler) (n : Nat) (hn : 1 ≤ n)
    (hd : s.defer_commits = false) :
    ((CommitScheduler.iterSNC n s).tick).commits_executed =
      s.commits_executed + 1 ∧
    ((CommitScheduler.iterSNC n s).tick.tick).commits_executed =
      s.commits_executed + 1 := by
  rw [iterSNC_pos n hn s]
  unfold CommitScheduler.tick
  simp [hd]

theorem setNeedsCommit_collapse_witness :
    ((CommitScheduler.iterSNC 2 CommitScheduler.init).tick).commits_executed =
      CommitScheduler.init.commits_executed + 1 ∧
    ((CommitScheduler.iterSNC 2 CommitScheduler.init).tick.tick).commits_executed =
      CommitScheduler.init.commits_executed + 1 :=
  setNeedsCommit_collapse CommitScheduler.init 2 (by decide) (by decide)

/-- C5: while `SetDeferCommits(true)` is in effect, ticks execute no commit and
the request stays queued (not dropped); after `SetDeferCommits(false)`, the
next tick executes exactly one commit for the whole deferral window — however
many (n ≥ 1) `SetNeedsCommit` calls the window saw — and a further tick
executes no extra commit. -/
theorem deferCommits_window (s : CommitScheduler) (n : Nat) (hn : 1 ≤ n) :
    ((CommitScheduler.iterSNC n (s.SetDeferCommits true)).tick =
      CommitScheduler.iterSNC n (s.SetDeferCommits true)) ∧
    ((CommitScheduler.iterSNC n (s.SetDeferCommits true)).needs_commit = true) ∧
    ((((CommitScheduler.iterSNC n
        (s.SetDeferCommits true)).tick.SetDeferCommits false).tick).commits_executed =
      s.commits_executed + 1) ∧
    ((((CommitScheduler.iterSNC n
        (s.SetDeferCommits true)).tick.SetDeferCommits false).tick.tick).commits_executed =
      s.commits_executed + 1) := by
  rw [iterSNC_pos n hn (s.SetDeferCommits true)]
  unfold CommitScheduler.SetDeferCommits CommitScheduler.tick
  simp

theorem deferCommits_window_witness :
    ((CommitScheduler.iterSNC 3 (CommitScheduler.init.SetDeferCommits true)).tick =
      CommitScheduler.iterSNC 3 (CommitScheduler.init.SetDeferCommits true)) ∧
    ((CommitScheduler.iterSNC 3
        (CommitScheduler.init.SetDeferCommits true)).needs_commit = true) ∧
    ((((CommitScheduler.iterSNC 3
        (CommitScheduler.init.SetDeferCommits
          true)).tick.SetDeferCommits false).tick).commits_executed =
      CommitScheduler.init.commits_executed + 1) ∧
    ((((CommitScheduler.iterSNC 3
        (CommitScheduler.init.SetDeferCommits
          true)).tick.SetDeferCommits false).tick.tick).commits_executed =
      CommitScheduler.init.commits_executed + 1) :=
  deferCommits_window CommitScheduler.init 3 (by decide)

/-- Modelled from the spec: the observable effect of
`LayerTreeHost::CompositeAndReadback` (the LayerTreeHost/proxy implementation
is not part of this sample; only src/cc/trees/layer_tree_host_unittest.cc is).
Spec §4.4/§6: the synchronous readback forces exactly one commit+draw+swap
cycle even when invisible or deferred, fills the caller's buffer with rendered
RGBA data (four bytes per pixel of the requested rect), and leaves no
render-surface allocation on the root layer afterward. -/
structure ReadbackHost where
  visible : Bool
  commit_count : Nat
  draw_count : Nat
  swap_count : Nat
  root_has_render_surface : Bool
deriving DecidableEq, Repr

/-- Modelled from the spec: `CompositeAndReadback(pixel_buffer, rect)` for a
`w × h` rect; returns the updated host and the filled RGBA byte buffer. -/
def ReadbackHost.CompositeAndReadback (host : ReadbackHost) (w h : Nat) :
    ReadbackHost × List Nat :=
  ({ host with
      commit_count := host.commit_count + 1
      draw_count := host.draw_count + 1
      swap_count := host.swap_count + 1
      root_has_render_surface := false },
   (List.range (w * h)).flatMap fun _ => [0, 255, 0, 255])

/-- C6: `CompositeAndReadback` invoked while the host is invisible still forces
exactly one full commit+draw+swap cycle before returning, fills the pixel
buffer with rendered RGBA data for the requested rect (four bytes per pixel,
all written), and leaves no residual render-surface allocation on the root
layer afterward. -/
theorem compositeAndReadback_while_invisible (host : ReadbackHost) (w h : Nat)
    (hv : host.visible = false) :
    ((host.CompositeAndReadback w h).1.commit_count = host.commit_count + 1) ∧
    ((host.CompositeAndReadback w h).1.draw_count = host.draw_count + 1) ∧
    ((host.CompositeAndReadback w h).1.swap_count = host.swap_count + 1) ∧
    ((host.CompositeAndReadback w h).2.length = 4 * (w * h)) ∧
    ((host.CompositeAndReadback w h).1.root_has_render_surface = false) := by
  refine ⟨rfl, rfl, rfl, ?_, rfl⟩
  unfold ReadbackHost.CompositeAndReadback
  simp [List.length_flatMap, Function.comp_def, List.map_const', List.sum_replicate,
    smul_eq_mul]
  ring

theorem compositeAndReadback_while_invisible_witness :
    (((⟨false, 1, 1, 1, true⟩ :
        Cc.ReadbackHost).CompositeAndReadback 1 1).1.commit_count = 1 + 1) ∧
    (((⟨false, 1, 1, 1, true⟩ :
        Cc.ReadbackHost).CompositeAndReadback 1 1).1.draw_count = 1 + 1) ∧
    (((⟨false, 1, 1, 1, true⟩ :
        Cc.ReadbackHost).CompositeAndReadback 1 1).1.swap_count = 1 + 1) ∧
    (((⟨false, 1, 1, 1, true⟩ :
        Cc.ReadbackHost).CompositeAndReadback 1 1).2.length = 4 * (1 * 1)) ∧
    (((⟨false, 1, 1, 1, true⟩ :
        Cc.ReadbackHost).CompositeAndReadback 1 1).1.root_has_render_surface = false) :=
  compositeAndReadback_while_invisible ⟨false, 1, 1, 1, true⟩ 1 1 (by decide)

/-- Modelled from the spec: one prioritized GPU-backed texture resource of the
texture resource manager (the PrioritizedResource/manager implementation is
not part of this sample; only the unit tests are).  `priority` is its
eviction priority (smaller is more important; ties broken by registration
order, i.e. list position), `size` its declared byte size and `backed`
whether it currently holds a GPU backing (spec §4.3). -/
structure PrioritizedResource where
  priority : Nat
  size : Nat
  backed : Bool
deriving DecidableEq, Repr

instance : Inhabited PrioritizedResource := ⟨⟨0, 0, false⟩⟩

/-- Modelled from the spec: cumulative bytes of all resources that come no
later than resource `i` in the priority order (priority, then registration
order), resource `i` included. -/
def cumulativeBytesThrough (rs : List PrioritizedResource) (i : Nat) : Nat :=
  ((List.range rs.length).filter fun j =>
      decide ((rs.getD j default).priority < (rs.getD i default).priority ∨
        ((rs.getD j default).priority = (rs.getD i default).priority ∧ j ≤ i))).foldl
    (fun acc j => acc + (rs.getD j default).size) 0

/-- Modelled from the spec: one priority pass — resources are granted backing
while cumulative bytes stay within the limit, all others are evicted. -/
def priorityPass (rs : List PrioritizedResource) (limit : Nat) :
    List PrioritizedResource :=
  (List.range rs.length).map fun i =>
    let r := rs.getD i default
    { r with backed := decide (cumulativeBytesThrough rs i ≤ limit) }

/-- Modelled from the spec: the texture resource manager — its registered
resources (in registration order), whether contents textures were purged
since the last successful full allocation pass, and whether eviction has
scheduled a recovery commit (spec §4.3). -/
structure TextureResourceManager where
  resources : List PrioritizedResource
  purged : Bool
  needs_commit : Bool
deriving DecidableEq, Repr

/-- Modelled from the spec: applying a memory policy byte limit runs one
priority pass; if any previously backed resource lost its backing, the purged
flag is set and a new commit is requested. -/
def TextureResourceManager.applyMemoryPolicy (m : TextureResourceManager)
    (limit : Nat) : TextureResourceManager :=
  let rs := priorityPass m.resources limit
  let evicted := (List.range m.resources.length).any fun i =>
    (m.resources.getD i default).backed && !((rs.getD i default).backed)
  { resources := rs
    purged := m.purged || evicted
    needs_commit := m.needs_commit || evicted }

/-- Modelled from the spec: `memoryUseBytes()` — total bytes of currently
backed resources. -/
def TextureResourceManager.memoryUseBytes (m : TextureResourceManager) : Nat :=
  (m.resources.filter fun r => r.backed).foldl (fun acc r => acc + r.size) 0

/-- Three registered contents resources of 100*100*4 bytes each, all backed by
a previous full allocation pass, highest priority first. -/
def evictScenarioStart : TextureResourceManager :=
  { resources := [⟨0, 100 * 100 * 4, true⟩, ⟨1, 100 * 100 * 4, true⟩,
      ⟨2, 100 * 100 * 4, true⟩]
    purged := false
    needs_commit := false }

/-- The manager after the visible-policy pass with a 2×(100*100*4) limit. -/
def evictAfterVisiblePass : TextureResourceManager :=
  evictScenarioStart.applyMemoryPolicy (2 * (100 * 100 * 4))

/-- C7: with three registered resources of 100*100*4 bytes and a visible
policy limit of 2×(100*100*4) bytes, the priority pass leaves exactly two
resources backed (`memoryUseBytes` = 2×100*100*4), evicts the lowest-priority
one, sets the contents-textures-purged flag and schedules a new commit; the
subsequent invisible pass with the smaller 1×(100*100*4) budget evicts one
more resource. -/
theorem texture_eviction_scenario :
    evictAfterVisiblePass.memoryUseBytes = 2 * (100 * 100 * 4) ∧
    (evictAfterVisiblePass.resources.getD 0 default).backed = true ∧
    (evictAfterVisiblePass.resources.getD 1 default).backed = true ∧
    (evictAfterVisiblePass.resources.getD 2 default).backed = false ∧
    evictAfterVisiblePass.purged = true ∧
    evictAfterVisiblePass.needs_commit = true ∧
    (evictAfterVisiblePass.applyMemoryPolicy (100 * 100 * 4)).memoryUseBytes =
      100 * 100 * 4 ∧
    ((evictAfterVisiblePass.applyMemoryPolicy
        (100 * 100 * 4)).resources.getD 2 default).backed = false := by
  decide

/-- Modelled from the spec: the rendering paths exercised by the
max-partial-texture-updates tests (the LayerTreeHost / proxy implementation is
not part of this sample; only src/cc/trees/layer_tree_host_unittest.cc is).
A fully delegated path (GL or software content) cannot support incremental
uploads at all. -/
inductive RendererPath where
  | direct3d
  | directSoftware
  | delegated3d
  | delegatedSoftware
deriving DecidableEq, Repr

/-- Modelled from the spec: whether the presentation layer allows incremental
(dirty-rect) texture updates at all; false exactly on the fully delegated
paths. -/
def allowPartialTextureUpdates : RendererPath → Bool
  | .direct3d => true
  | .directSoftware => true
  | .delegated3d => false
  | .delegatedSoftware => false

/-- Modelled from the spec: the effective max-partial-texture-updates budget —
the configured setting clamped to the capability reported by the presentation
layer, and 0 when the renderer does not allow incremental updates at all. -/
def effectiveMaxPartialTextureUpdates (settingsMax proxyCap : Nat)
    (allow : Bool) : Nat :=
  if allow then min settingsMax proxyCap else 0

/-- Modelled from the spec: the effective budget for a given rendering path. -/
def effectiveBudgetForPath (p : RendererPath) (settingsMax proxyCap : Nat) : Nat :=
  effectiveMaxPartialTextureUpdates settingsMax proxyCap
    (allowPartialTextureUpdates p)

/-- C8: the effective max-partial-texture-updates budget is the minimum of the
configured setting and the presentation layer's capability: 0 when the
renderer does not allow incremental updates, the capability when it is smaller
than the setting, the setting otherwise; and on a fully delegated path (GL or
software content) the budget is 0 whatever the setting. -/
theorem max_partial_updates_clamped (settingsMax proxyCap : Nat) :
    (effectiveMaxPartialTextureUpdates settingsMax proxyCap false = 0) ∧
    (proxyCap < settingsMax →
      effectiveMaxPartialTextureUpdates settingsMax proxyCap true = proxyCap) ∧
    (settingsMax ≤ proxyCap →
      effectiveMaxPartialTextureUpdates settingsMax proxyCap true = settingsMax) ∧
    (∀ p : RendererPath,
      (p = RendererPath.delegated3d ∨ p = RendererPath.delegatedSoftware) →
      effectiveBudgetForPath p settingsMax proxyCap = 0) := by
  refine ⟨rfl, ?_, ?_, ?_⟩
  · intro h
    unfold effectiveMaxPartialTextureUpdates
    simp [Nat.min_eq_right (Nat.le_of_lt h)]
  · intro h
    unfold effectiveMaxPartialTextureUpdates
    simp [Nat.min_eq_left h]
  · rintro p (rfl | rfl) <;> rfl

theorem max_partial_updates_clamped_witness :
    (effectiveMaxPartialTextureUpdates 10 5 false = 0) ∧
    (5 < 10 → effectiveMaxPartialTextureUpdates 10 5 true = 5) ∧
    (10 ≤ 5 → effectiveMaxPartialTextureUpdates 10 5 true = 10) ∧
    (∀ p : RendererPath,
      (p = RendererPath.delegated3d ∨ p = RendererPath.delegatedSoftware) →
      effectiveBudgetForPath p 10 5 = 0) :=
  max_partial_updates_clamped 10 5

/-- Modelled from the spec: the bind/reinitialize state of `cc::OutputSurface`
(output_surface.cc is not part of this sample; only
src/cc/output/output_surface_unittest.cc is).  `has_client` records whether an
OutputSurfaceClient was retained, `has_context3d` / `has_software_device` the
present channels (spec §4.5). -/
structure OutputSurface where
  has_client : Bool
  has_context3d : Bool
  has_software_device : Bool
deriving DecidableEq, Repr

/-- Modelled from the spec: `BindToClient(client)` succeeds only if the
underlying context can be made current and the client's deferred-initialize
hook succeeds; on failure no client is retained and the surface is left
unchanged. -/
def OutputSurface.BindToClient (s : OutputSurface)
    (contextMakeCurrentOk deferredInitializeOk : Bool) :
    Bool × OutputSurface :=
  if contextMakeCurrentOk && deferredInitializeOk then
    (true, { s with has_client := true })
  else
    (false, s)

/-- Modelled from the spec: `InitializeNewContext3D` proceeds only with a bound
client; if making the new context current or the client's deferred-initialize
fails it returns false and leaves the previously bound client and the existing
software/context state unchanged. -/
def OutputSurface.InitializeNewContext3D (s : OutputSurface)
    (newContextMakeCurrentOk deferredInitializeOk : Bool) :
    Bool × OutputSurface :=
  if !s.has_client then (false, s)
  else if newContextMakeCurrentOk && deferredInitializeOk then
    (true, { s with has_context3d := true })
  else (false, s)

/-- C9: `BindToClient` succeeds exactly when the context can be made current
and the client's deferred-initialize hook succeeds, and on failure the surface
is returned unchanged — in particular no client is retained (clean failure,
not a partial bind); `InitializeNewContext3D` returns false without any state
change when no client is bound, and when the new context cannot be made
current or the deferred-initialize hook fails it returns false with the bound
client and the existing software/context state untouched. -/
theorem output_surface_bind_contract :
    (∀ (s : Cc.OutputSurface) (ok1 ok2 : Bool),
        (s.BindToClient ok1 ok2).1 = true ↔ (ok1 = true ∧ ok2 = true)) ∧
    (∀ (s : Cc.OutputSurface) (ok1 ok2 : Bool),
        (s.BindToClient ok1 ok2).1 = false → (s.BindToClient ok1 ok2).2 = s) ∧
    (∀ (s : Cc.OutputSurface) (ok1 ok2 : Bool), s.has_client = false →
        ((s.BindToClient ok1 ok2).1 = false →
          (s.BindToClient ok1 ok2).2.has_client = false)) ∧
    (∀ (s : Cc.OutputSurface) (ok1 ok2 : Bool), s.has_client = false →
        s.InitializeNewContext3D ok1 ok2 = (false, s)) ∧
    (∀ (s : Cc.OutputSurface) (ok1 ok2 : Bool),
        (ok1 = false ∨ ok2 = false) →
        s.InitializeNewContext3D ok1 ok2 = (false, s)) := by
  refine ⟨?_, ?_, ?_, ?_, ?_⟩
  · intro s ok1 ok2
    unfold OutputSurface.BindToClient
    rcases ok1 <;> rcases ok2 <;> simp
  · intro s ok1 ok2 h
    unfold OutputSurface.BindToClient at h ⊢
    rcases ok1 <;> rcases ok2 <;> simp_all
  · intro s ok1 ok2 hc h
    unfold OutputSurface.BindToClient at h ⊢
    rcases ok1 <;> rcases ok2 <;> simp_all
  · intro s ok1 ok2 hc
    unfold OutputSurface.InitializeNewContext3D
    rw [hc]
    rfl
  · intro s ok1 ok2 h
    unfold OutputSurface.InitializeNewContext3D
    rcases h with rfl | rfl
    · rcases hcl : s.has_client <;> simp
    · rcases hcl : s.has_client <;> rcases ok1 <;> simp

theorem output_surface_bind_contract_witness :
    (((⟨false, true, false⟩ : Cc.OutputSurface).BindToClient false true).1 = true ↔
      (false = true ∧ true = true)) ∧
    (((⟨false, true, false⟩ : Cc.OutputSurface).BindToClient false true).1 = false →
      ((⟨false, true, false⟩ : Cc.OutputSurface).BindToClient false true).2 =
        ⟨false, true, false⟩) ∧
    ((⟨false, true, false⟩ : Cc.OutputSurface).InitializeNewContext3D true true =
      (false, ⟨false, true, false⟩)) ∧
    ((⟨true, false, true⟩ : Cc.OutputSurface).InitializeNewContext3D false true =
      (false, ⟨true, false, true⟩)) :=
  ⟨output_surface_bind_contract.1 ⟨false, true, false⟩ false true,
   output_surface_bind_contract.2.1 ⟨false, true, false⟩ false true,
   output_surface_bind_contract.2.2.2.1 ⟨false, true, false⟩ true true (by decide),
   output_surface_bind_contract.2.2.2.2 ⟨true, false, true⟩ false true
     (Or.inl rfl)⟩

end Cc
